import Mathlib

/-!
Shallow embedding of the AntWarmer fail-safe relay controller
(`src/main.cpp`, the current system; `src/oldsystem.cpp` is the legacy
single-loop variant).

Modelling conventions:
* `float` temperatures are modelled as exact rationals (`ℚ`); every
  comparison in the source is an ordering test on values such as 24.0,
  28.0 and 0.25 that are exact in binary floating point, so the rational
  model agrees with the C++ semantics on the control logic.
* `unsigned long` millisecond clocks are modelled as `Nat` reduced
  mod 2^32, with the wraparound-safe subtraction `wsub` standing for the
  C expression `now - last` on 32-bit unsigned values.
* `digitalWrite` on a relay pin is modelled by two trace fields on the
  controller: the last level written (`relay_active`) and the number of
  writes performed (`relay_writes`), so that "no duplicate write"
  claims are expressible.
* The `PANIC(uid, reason)` macro passes `__LINE__`; the concrete line
  numbers of `src/main.cpp` appear as literal arguments.
-/

/-- The constant `2^32`, the modulus of Arduino `unsigned long` arithmetic. -/
def U32 : Nat := 4294967296

/-- Wraparound-safe unsigned subtraction: the C expression `a - b` on
`unsigned long`, i.e. the difference mod 2^32. -/
def wsub (a b : Nat) : Nat := (a % U32 + U32 - b % U32) % U32

/-- The `enum class PanicReason` from `src/main.cpp`. -/
inductive PanicReason
  | None
  | SensorDisconnected
  | OverMax
  | DesyncNoRise
  | LEDRegisterFail
  | Other
deriving DecidableEq, Repr

/-- The `struct PanicInfo` from `src/main.cpp`: the recorded fault record. -/
structure PanicInfo where
  ms : Nat
  line : Nat
  uid : Nat
  reason : PanicReason
deriving DecidableEq, Repr

/-- The static state of `class Panic`, with the registered callbacks kept
abstract (a callback slot is `Option α`, `none` standing for a null
function pointer, which `StartPanic` skips). -/
structure PanicSt (α : Type) where
  is_panic : Bool
  callbacks : List (Option α)
  panic_info : PanicInfo
deriving DecidableEq, Repr

/-- One invocation of `Panic::StartPanic(reason, uid, line)` at time
`now = millis()`.  Returns the new state together with the list of
callbacks invoked by this call, in invocation order. -/
def startPanic {α : Type} (s : PanicSt α) (reason : PanicReason)
    (uid line now : Nat) : PanicSt α × List α :=
  if s.is_panic then (s, [])
  else
    ({ s with is_panic := true,
              panic_info := ⟨now, line, uid, reason⟩ },
     s.callbacks.filterMap id)

/-- One `StartPanic` request: the arguments of one call. -/
structure PanicReq where
  reason : PanicReason
  uid : Nat
  line : Nat
  now : Nat
deriving DecidableEq, Repr

/-- Run a sequence of `StartPanic` calls, concatenating the callback
invocation traces. -/
def runPanics {α : Type} (s : PanicSt α) : List PanicReq → PanicSt α × List α
  | [] => (s, [])
  | r :: rs =>
    let p := startPanic s r.reason r.uid r.line r.now
    let q := runPanics p.1 rs
    (q.1, p.2 ++ q.2)

/-- The constant `TempController::DesyncMan::NEEDED_TEMP_CHANGE` (0.25 °C). -/
def NEEDED_TEMP_CHANGE : ℚ := 1/4

/-- The constant `TempController::DesyncMan::TIME_TO_WAIT` (180000 ms). -/
def TIME_TO_WAIT : Nat := 180000

/-- Global `TEMP_ALLOWANCE` (0.25 °C). -/
def TEMP_ALLOWANCE : ℚ := 1/4

/-- The constant `READ_INTERVAL_MS` (2000 ms). -/
def READ_INTERVAL_MS : Nat := 2000

/-- The constant `DEVICE_DISCONNECTED_C` of the DallasTemperature library (-127 °C). -/
def DEVICE_DISCONNECTED_C : ℚ := -127

/-- The state of `TempController::DesyncMan`. -/
structure DesyncMan where
  start_time : Nat
  start_temp : ℚ
  not_inited : Bool
deriving DecidableEq, Repr

/-- The `DesyncMan` constructor: members value-initialised, `not_inited_`
set to `true`. -/
def desyncInitial : DesyncMan := ⟨0, 0, true⟩

/-- Method `DesyncMan::Reset`. -/
def DesyncMan.Reset (d : DesyncMan) : DesyncMan := { d with not_inited := true }

/-- Method `DesyncMan::Begin(temp_c)` at time `now = millis()`. -/
def DesyncMan.Begin (d : DesyncMan) (now : Nat) (t : ℚ) : DesyncMan :=
  { d with start_time := now, start_temp := t, not_inited := false }

/-- Method `DesyncMan::Update(temp_c)` at time `now = millis()`: returns the
boolean result together with the updated detector state. -/
def DesyncMan.Update (d : DesyncMan) (now : Nat) (t : ℚ) : Bool × DesyncMan :=
  let d1 := if d.not_inited then d.Begin now t else d
  (decide (TIME_TO_WAIT ≤ wsub now d1.start_time ∧
           t - d1.start_temp < NEEDED_TEMP_CHANGE), d1)

/-- The `enum TempController::State`. -/
inductive CState
  | HEATING
  | COOLING
  | OFF
deriving DecidableEq, Repr

/-- The mutable state of one `TempController`, together with the relay
trace (last level written, number of writes). -/
structure Ctrl where
  uid : Nat
  st : CState
  heater_is_off : Bool
  target : ℚ
  max : ℚ
  desync : DesyncMan
  relay_active : Bool
  relay_writes : Nat
deriving DecidableEq, Repr

/-- Method `TempController::IsHeating`. -/
def Ctrl.IsHeating (c : Ctrl) : Bool := !c.heater_is_off

/-- Method `TempController::Off`: writes the inactive level to the relay pin
(unconditionally — the `heater_is_off_` guard is commented out in
`src/main.cpp`), moves the state to `OFF` when the panic latch `p` is
triggered, and marks the heater off. -/
def Ctrl.Off (p : Bool) (c : Ctrl) : Ctrl :=
  { c with relay_active := false,
           relay_writes := c.relay_writes + 1,
           st := if p then CState.OFF else c.st,
           heater_is_off := true }

/-- Method `TempController::On`: a no-op when the heater is already on, else
writes the active level to the relay pin and marks the heater on. -/
def Ctrl.On (c : Ctrl) : Ctrl :=
  if c.heater_is_off = false then c
  else
    { c with relay_active := true,
             relay_writes := c.relay_writes + 1,
             heater_is_off := false }

/-- The two controller instances of `src/main.cpp`: `nico` and `trap`. -/
inductive CtrlId
  | nico
  | trap
deriving DecidableEq, Repr

/-- The composed mutable state of the program: the `Panic` statics and
the two controllers.  The registered panic callbacks are exactly
`[](){nico.Off();}` and `[](){trap.Off();}` (see `setup()`), so the
callback list is not stored: `StartPanic` applies `Off` to both. -/
structure Sys where
  is_panic : Bool
  panic_info : PanicInfo
  nico : Ctrl
  trap : Ctrl
deriving DecidableEq, Repr

/-- Read one controller of the system. -/
def Sys.get (s : Sys) : CtrlId → Ctrl
  | CtrlId.nico => s.nico
  | CtrlId.trap => s.trap

/-- Apply a function to one controller of the system. -/
def Sys.modify (s : Sys) (i : CtrlId) (f : Ctrl → Ctrl) : Sys :=
  match i with
  | CtrlId.nico => { s with nico := f s.nico }
  | CtrlId.trap => { s with trap := f s.trap }

/-- Method `Panic::StartPanic` as it behaves in the assembled program: if the
latch is already on, no effect; otherwise latch, record the first fault,
and run the registered shutdown callbacks (`nico.Off(); trap.Off();`) in
registration order.  The callbacks run after `is_panic_` is set, so the
`Off` they perform sees a triggered latch. -/
def sysStartPanic (reason : PanicReason) (uid line now : Nat) (s : Sys) : Sys :=
  if s.is_panic then s
  else
    { is_panic := true,
      panic_info := ⟨now, line, uid, reason⟩,
      nico := Ctrl.Off true s.nico,
      trap := Ctrl.Off true s.trap }

/-- Method `TempController::Update(current_temp_c)` on controller `i`, at time
`now = millis()`, acting on the whole system because a raised fault
triggers the global latch and its callbacks.  Mirrors
`src/main.cpp` lines 353–383; the `PANIC` line numbers are 358 and 367. -/
def sysUpdate (i : CtrlId) (temp : ℚ) (now : Nat) (s : Sys) : Sys :=
  let c := s.get i
  if c.st = CState.OFF then s
  else if c.max ≤ temp then
    let s1 := sysStartPanic PanicReason.OverMax c.uid 358 now s
    s1.modify i (Ctrl.Off s1.is_panic)
  else if c.st = CState.HEATING then
    let r := c.desync.Update now temp
    let s1 := s.modify i (fun c0 => { c0 with desync := r.2 })
    if r.1 then
      let s2 := sysStartPanic PanicReason.DesyncNoRise c.uid 367 now s1
      s2.modify i (Ctrl.Off s2.is_panic)
    else if c.target + TEMP_ALLOWANCE ≤ temp then
      let s2 := s1.modify i (Ctrl.Off s1.is_panic)
      s2.modify i (fun c0 => { c0 with st := CState.COOLING })
    else s1
  else
    if temp ≤ c.target - TEMP_ALLOWANCE then
      let s1 := s.modify i (fun c0 => { c0 with desync := c0.desync.Reset })
      let s2 := s1.modify i Ctrl.On
      s2.modify i (fun c0 => { c0 with st := CState.HEATING })
    else s

/-- Method `TempController::Loop` on controller `i` with sensor reading
`reading` at time `now`: short-circuits on a triggered latch, raises
`SensorDisconnected` (line 394) on a disconnected reading, otherwise
runs `Update`. -/
def sysLoop (i : CtrlId) (reading : ℚ) (now : Nat) (s : Sys) : Sys :=
  if s.is_panic then s
  else if reading = DEVICE_DISCONNECTED_C then
    sysStartPanic PanicReason.SensorDisconnected (s.get i).uid 394 now s
  else
    sysUpdate i reading now s

/-- The constant `LEDMan::MAX_CONTROLLERS`. -/
def MAX_CONTROLLERS : Nat := 4

/-- The static state of `class LEDMan`: the registry of observed
controllers (an entry models a `TempController const *`, `none` being
a null pointer; `Register` never stores one), the current pattern
index, the blink phase, and the last toggle time. -/
structure LEDSt where
  controllers : List (Option CtrlId)
  currentStateIndex : Nat
  ledOn : Bool
  lastToggleMs : Nat
deriving DecidableEq, Repr

/-- The `LEDMan` statics at program start: empty registry, state index
0, LED off, toggle timer 0. -/
def ledInitial : LEDSt := ⟨[], 0, false, 0⟩

/-- Method `LEDMan::Register(tc)` at time `now`: on a null pointer or a full
registry it raises `PANIC(0, LEDRegisterFail)` (line 209) and leaves the
registry unchanged; otherwise it appends the pointer.  Returns the new
panic/system state and the new LED state. -/
def ledRegister (tc : Option CtrlId) (now : Nat) (s : Sys) (l : LEDSt) :
    Sys × LEDSt :=
  if tc = none ∨ MAX_CONTROLLERS ≤ l.controllers.length then
    (sysStartPanic PanicReason.LEDRegisterFail 0 209 now s, l)
  else
    (s, { l with controllers := l.controllers ++ [tc] })

/-- Method `LEDMan::HalfPeriodForState`. -/
def HalfPeriodForState (state : Nat) : Nat :=
  if state = 0 then 50
  else if state = 1 then 1000
  else 10000

/-- The read `controllers_[i]->IsHeating()` on a registry entry (a null entry is
never dereferenced in the program; the model reads it as not heating). -/
def entryIsHeating (s : Sys) : Option CtrlId → Bool
  | none => false
  | some i => (s.get i).IsHeating

/-- Method `LEDMan::UpdateState`: recompute the aggregate pattern (0 on a
triggered latch, else 1 when any registered loop is heating, else 2);
on a pattern change reset the phase to on and restart the toggle
timer. -/
def ledUpdateState (now : Nat) (s : Sys) (l : LEDSt) : LEDSt :=
  let new_state : Nat :=
    if s.is_panic then 0
    else if l.controllers.any (entryIsHeating s) then 1
    else 2
  if new_state ≠ l.currentStateIndex then
    { l with currentStateIndex := new_state, ledOn := true, lastToggleMs := now }
  else l

/-- Method `LEDMan::Update` at time `now = millis()`: run `UpdateState`, then
toggle the phase when the elapsed time since the last toggle reaches the
current pattern's half-period.  (The final `digitalWrite(LED_BUILTIN, …)`
emits `ledOn_`, which the model keeps as the `ledOn` field.) -/
def ledUpdate (now : Nat) (s : Sys) (l : LEDSt) : LEDSt :=
  let l1 := ledUpdateState now s l
  let elapsed := wsub now l1.lastToggleMs
  let halfPeriod := HalfPeriodForState l1.currentStateIndex
  if halfPeriod ≤ elapsed then
    { l1 with ledOn := !l1.ledOn, lastToggleMs := now }
  else l1

/-- The whole mutable program state driven by `loop()`: the panic and
controller state, the LED state, and `GLastReadMs`. -/
structure MainSt where
  sys : Sys
  led : LEDSt
  gLastReadMs : Nat
deriving DecidableEq, Repr

/-- The inputs of one iteration of `loop()`: the two sensor readings
(used only when the read gate opens and the latch is off) and the
`millis()` value of the iteration. -/
structure TickIn where
  rNico : ℚ
  rTrap : ℚ
  now : Nat
deriving DecidableEq, Repr

/-- One iteration of `loop()` (`src/main.cpp` lines 514–530):
`LEDMan::Update()`, then the 2000 ms read gate, then the panic
short-circuit, then `nico.Loop(); trap.Loop();`. -/
def loopTick (inp : TickIn) (m : MainSt) : MainSt :=
  let led1 := ledUpdate inp.now m.sys m.led
  if wsub inp.now m.gLastReadMs < READ_INTERVAL_MS then
    { m with led := led1 }
  else if m.sys.is_panic then
    { m with led := led1, gLastReadMs := inp.now }
  else
    let s1 := sysLoop CtrlId.nico inp.rNico inp.now m.sys
    let s2 := sysLoop CtrlId.trap inp.rTrap inp.now s1
    { sys := s2, led := led1, gLastReadMs := inp.now }

/-- Run a sequence of `loop()` iterations. -/
def runTicks (m : MainSt) : List TickIn → MainSt
  | [] => m
  | t :: ts => runTicks (loopTick t m) ts

/-- The `TempController` constructor followed by `Begin()` (which writes
the inactive level to the relay pin once): initial state `COOLING`,
heater off. -/
def ctrlStart (uid : Nat) (target max : ℚ) : Ctrl :=
  { uid := uid, st := CState.COOLING, heater_is_off := true,
    target := target, max := max, desync := desyncInitial,
    relay_active := false, relay_writes := 1 }

/-- The system right after `setup()`:
`TempController nico(1u, 24.0f, 28.0f, 2u, 8u)` and
`TempController trap(2u, 25.0f, 28.0f, 4u, 12u)`, latch off,
no recorded fault. -/
def initialSys : Sys :=
  { is_panic := false,
    panic_info := ⟨0, 0, 0, PanicReason.None⟩,
    nico := ctrlStart 1 24 28,
    trap := ctrlStart 2 25 28 }

/-- One call on the system's entry points: `Update`, `Off` (as the panic
callbacks and the fail-safe paths call it), `Loop`, or `StartPanic`
(raised by any component, e.g. `LEDMan::Register`). -/
inductive SysOp
  | update (i : CtrlId) (temp : ℚ) (now : Nat)
  | offCall (i : CtrlId)
  | loopCall (i : CtrlId) (reading : ℚ) (now : Nat)
  | panicCall (reason : PanicReason) (uid line now : Nat)
deriving Repr

/-- Apply one entry-point call to the system. -/
def applyOp (s : Sys) : SysOp → Sys
  | SysOp.update i temp now => sysUpdate i temp now s
  | SysOp.offCall i => s.modify i (Ctrl.Off s.is_panic)
  | SysOp.loopCall i reading now => sysLoop i reading now s
  | SysOp.panicCall reason uid line now => sysStartPanic reason uid line now s

/-- Apply a sequence of entry-point calls. -/
def runOps (s : Sys) : List SysOp → Sys
  | [] => s
  | op :: ops => runOps (applyOp s op) ops

/-- The safety invariant of a controller within the system: `OFF`
implies the output flag is inactive, and `OFF` implies the panic latch
is triggered. -/
def sysInv (s : Sys) : Prop :=
  ∀ i : CtrlId, (s.get i).st = CState.OFF →
    ((s.get i).heater_is_off = true ∧ s.is_panic = true)

/-- The aggregate pattern index `LEDMan::UpdateState` computes:
0 on a triggered latch, else 1 when some registered loop is heating,
else 2. -/
def ledPattern (s : Sys) (l : LEDSt) : Nat :=
  if s.is_panic then 0
  else if l.controllers.any (entryIsHeating s) then 1
  else 2

/-- Run a sequence of `LEDMan::Register` calls (pointer argument and
`millis()` value of each call). -/
def runRegs : List (Option CtrlId × Nat) → Sys × LEDSt → Sys × LEDSt
  | [], p => p
  | r :: rs, p => runRegs rs (ledRegister r.1 r.2 p.1 p.2)


/-- The system after a first fault (`OverMax` raised by `nico` at
1000 ms): concrete post-trigger state. -/
def panickedSys : Sys := sysStartPanic PanicReason.OverMax 1 358 1000 initialSys

/-- A whole-program state whose latch is already triggered. -/
def panickedMain : MainSt := ⟨panickedSys, ledInitial, 1000⟩

/-- A controller that has been commanded to heat for a full desync grace
window with no temperature rise: `HEATING`, output active, desync window
opened at time 0 with baseline 24 °C. -/
def stuckHeatCtrl : Ctrl :=
  { uid := 1, st := CState.HEATING, heater_is_off := false, target := 24,
    max := 28,
    desync := { start_time := 0, start_temp := 24, not_inited := false },
    relay_active := true, relay_writes := 2 }

/-- A system whose `nico` controller is `stuckHeatCtrl`, latch off. -/
def stuckHeatSys : Sys :=
  { is_panic := false, panic_info := ⟨0, 0, 0, PanicReason.None⟩,
    nico := stuckHeatCtrl, trap := ctrlStart 2 25 28 }

/-! ### Helper lemmas -/

lemma wsub_self (a : Nat) : wsub a a = 0 := by
  unfold wsub
  have h : a % U32 + U32 - a % U32 = U32 := by omega
  simp [h]

@[simp] lemma get_modify_self (s : Sys) (i : CtrlId) (f : Ctrl → Ctrl) :
    (s.modify i f).get i = f (s.get i) := by
  cases i <;> rfl

lemma get_modify_other (s : Sys) (i j : CtrlId) (f : Ctrl → Ctrl)
    (h : i ≠ j) : (s.modify i f).get j = s.get j := by
  cases i <;> cases j <;> first | rfl | exact absurd rfl h

@[simp] lemma modify_is_panic (s : Sys) (i : CtrlId) (f : Ctrl → Ctrl) :
    (s.modify i f).is_panic = s.is_panic := by
  cases i <;> rfl

@[simp] lemma modify_panic_info (s : Sys) (i : CtrlId) (f : Ctrl → Ctrl) :
    (s.modify i f).panic_info = s.panic_info := by
  cases i <;> rfl

@[simp] lemma sysStartPanic_is_panic (reason : PanicReason) (uid line now : Nat)
    (s : Sys) : (sysStartPanic reason uid line now s).is_panic = true := by
  unfold sysStartPanic
  split <;> simp_all

lemma sysStartPanic_get (reason : PanicReason) (uid line now : Nat)
    (s : Sys) (i : CtrlId) :
    (sysStartPanic reason uid line now s).get i =
      if s.is_panic then s.get i else Ctrl.Off true (s.get i) := by
  unfold sysStartPanic
  cases i <;> split <;> rfl

lemma sysStartPanic_info (reason : PanicReason) (uid line now : Nat)
    (s : Sys) (h : s.is_panic = false) :
    (sysStartPanic reason uid line now s).panic_info = ⟨now, line, uid, reason⟩ := by
  simp [sysStartPanic, h]

@[simp] lemma Off_desync (p : Bool) (c : Ctrl) : (Ctrl.Off p c).desync = c.desync := rfl

@[simp] lemma Off_heater (p : Bool) (c : Ctrl) : (Ctrl.Off p c).heater_is_off = true := rfl

@[simp] lemma Off_relay (p : Bool) (c : Ctrl) : (Ctrl.Off p c).relay_active = false := rfl

@[simp] lemma Off_true_st (c : Ctrl) : (Ctrl.Off true c).st = CState.OFF := rfl

/-! ### C6: DesyncMan -/

/-- C6: the first `DesyncMan::Update` after construction or `Reset`
records `(now, temp)` as baseline and returns `false`; every later
`Update(t)` returns `true` iff the elapsed time since the baseline is at
least 180000 ms and the rise `t - baselineTemp` is under 0.25 °C, and in
either case leaves the baseline untouched (a positive detection does not
reset it). -/
theorem desync_update_spec (d : DesyncMan) (now : Nat) (t : ℚ) :
    (d.not_inited = true → d.Update now t = (false, ⟨now, t, false⟩)) ∧
    (d.not_inited = false →
      d.Update now t =
        (decide (TIME_TO_WAIT ≤ wsub now d.start_time ∧
                 t - d.start_temp < NEEDED_TEMP_CHANGE), d)) ∧
    desyncInitial.not_inited = true ∧ d.Reset.not_inited = true := by
  refine ⟨?_, ?_, rfl, rfl⟩
  · intro h
    simp [DesyncMan.Update, DesyncMan.Begin, h, wsub_self, TIME_TO_WAIT]
  · intro h
    simp [DesyncMan.Update, h]

/-- Witness for C6 at concrete inputs: a fresh detector baselines at
`(5, 24)` and reports `false`; the same detector 180000 ms later with no
rise reports `true` and keeps its baseline. -/
theorem desync_update_spec_witness :
    DesyncMan.not_inited ⟨0, 0, true⟩ = true ∧
    DesyncMan.Update ⟨0, 0, true⟩ 5 24 = (false, ⟨5, 24, false⟩) ∧
    DesyncMan.Update ⟨5, 24, false⟩ 180005 24 =
      (decide (TIME_TO_WAIT ≤ wsub 180005 5 ∧
               (24 : ℚ) - 24 < NEEDED_TEMP_CHANGE), ⟨5, 24, false⟩) := by
  refine ⟨rfl, ?_, ?_⟩
  · exact (desync_update_spec ⟨0, 0, true⟩ 5 24).1 rfl
  · exact (desync_update_spec ⟨5, 24, false⟩ 180005 24).2.1 rfl

/-! ### C8: LEDMan pattern computation -/

/-- C8: on every indicator tick the aggregate pattern is 0 when the
latch is triggered, else 1 when some registered loop reports
`IsHeating()`, else 2, with half-periods 50/1000/10000 ms respectively;
a changed pattern resets the phase to on and restarts the toggle timer,
an unchanged pattern leaves the `UpdateState` step a no-op. -/
theorem led_pattern_spec (now : Nat) (s : Sys) (l : LEDSt) :
    (ledUpdateState now s l).currentStateIndex = ledPattern s l ∧
    (ledUpdate now s l).currentStateIndex = ledPattern s l ∧
    (ledPattern s l ≠ l.currentStateIndex →
      ledUpdateState now s l =
        { l with currentStateIndex := ledPattern s l, ledOn := true,
                 lastToggleMs := now }) ∧
    (ledPattern s l = l.currentStateIndex → ledUpdateState now s l = l) ∧
    HalfPeriodForState 0 = 50 ∧ HalfPeriodForState 1 = 1000 ∧
    HalfPeriodForState 2 = 10000 := by
  have hus : ledUpdateState now s l =
      if ledPattern s l ≠ l.currentStateIndex then
        { l with currentStateIndex := ledPattern s l, ledOn := true,
                 lastToggleMs := now }
      else l := rfl
  refine ⟨?_, ?_, ?_, ?_, rfl, rfl, rfl⟩
  · rw [hus]; split <;> simp_all
  · have h1 : (ledUpdateState now s l).currentStateIndex = ledPattern s l := by
      rw [hus]; split <;> simp_all
    have hu : ledUpdate now s l =
        if HalfPeriodForState (ledUpdateState now s l).currentStateIndex ≤
            wsub now (ledUpdateState now s l).lastToggleMs then
          { ledUpdateState now s l with
              ledOn := !(ledUpdateState now s l).ledOn, lastToggleMs := now }
        else ledUpdateState now s l := rfl
    rw [hu]
    split <;> simp_all
  · intro h; rw [hus]; simp [h]
  · intro h; rw [hus]; simp [h]

/-- Witness for C8 at a concrete input: with the latch off and the
registered loop heating, the pattern is 1 and a change from pattern 2
resets the phase and timer. -/
theorem led_pattern_spec_witness :
    (ledUpdateState 777 initialSys
        ⟨[some CtrlId.nico], 2, false, 5⟩).currentStateIndex =
      ledPattern initialSys ⟨[some CtrlId.nico], 2, false, 5⟩ := by
  exact (led_pattern_spec 777 initialSys ⟨[some CtrlId.nico], 2, false, 5⟩).1

/-! ### C9: idempotence of On / Off -/

/-- C9 counterexample: `Off` on a controller whose output is already
inactive is not a no-op — `src/main.cpp` has the `heater_is_off_` guard
commented out, so the call performs another relay write (the write count
goes from 1 to 2 on the freshly-begun controller), and when the latch is
triggered it additionally moves the state from `COOLING` to `OFF`. -/
theorem off_not_noop_counterexample :
    (ctrlStart 1 24 28).heater_is_off = true ∧
    (ctrlStart 1 24 28).relay_active = false ∧
    (ctrlStart 1 24 28).relay_writes = 1 ∧
    (Ctrl.Off false (ctrlStart 1 24 28)).relay_writes = 2 ∧
    (Ctrl.Off true (ctrlStart 1 24 28)).st = CState.OFF ∧
    (ctrlStart 1 24 28).st = CState.COOLING :=
  ⟨rfl, rfl, rfl, rfl, rfl, rfl⟩

/-- C9 amended: `On` when the output is already active is a no-op; `Off`
is unguarded — it always performs a relay write (so a redundant call
repeats the inactive-level write) — but it is idempotent on the logical
output: after one `Off` the heater flag is off and the relay level
inactive, and a second `Off` changes nothing except incrementing the
write count, so the fault latch may call it redundantly without any
effect beyond the repeated write. -/
theorem on_off_idempotence_amended (c : Ctrl) (p : Bool) :
    (c.heater_is_off = false → Ctrl.On c = c) ∧
    ((Ctrl.Off p c).heater_is_off = true ∧ (Ctrl.Off p c).relay_active = false) ∧
    (Ctrl.Off p (Ctrl.Off p c) =
      { Ctrl.Off p c with relay_writes := (Ctrl.Off p c).relay_writes + 1 }) := by
  refine ⟨?_, ⟨rfl, rfl⟩, ?_⟩
  · intro h
    simp [Ctrl.On, h]
  · unfold Ctrl.Off
    cases p <;> simp

/-- Witness for C9 amended at a concrete input: `On` on a heating
controller is a no-op. -/
theorem on_off_idempotence_amended_witness :
    Ctrl.heater_is_off ⟨1, CState.HEATING, false, 24, 28, desyncInitial, true, 2⟩ = false ∧
    Ctrl.On ⟨1, CState.HEATING, false, 24, 28, desyncInitial, true, 2⟩ =
      ⟨1, CState.HEATING, false, 24, 28, desyncInitial, true, 2⟩ :=
  ⟨rfl, (on_off_idempotence_amended
    ⟨1, CState.HEATING, false, 24, 28, desyncInitial, true, 2⟩ false).1 rfl⟩

/-! ### C10: LEDMan::Register -/

lemma ledRegister_preserves_inv (s : Sys) (l : LEDSt) (tc : Option CtrlId)
    (now : Nat) (h1 : l.controllers.length ≤ MAX_CONTROLLERS)
    (h2 : ∀ e ∈ l.controllers, e ≠ none) :
    (ledRegister tc now s l).2.controllers.length ≤ MAX_CONTROLLERS ∧
    ∀ e ∈ (ledRegister tc now s l).2.controllers, e ≠ none := by
  unfold ledRegister
  split
  · exact ⟨h1, h2⟩
  · rename_i h
    push_neg at h
    obtain ⟨hn, hlen⟩ := h
    refine ⟨?_, ?_⟩
    · simp only [List.length_append, List.length_singleton]
      omega
    · intro e he
      simp only [List.mem_append, List.mem_singleton] at he
      rcases he with he | he
      · exact h2 e he
      · subst he; exact hn

lemma runRegs_inv (regs : List (Option CtrlId × Nat)) (s : Sys) (l : LEDSt)
    (h1 : l.controllers.length ≤ MAX_CONTROLLERS)
    (h2 : ∀ e ∈ l.controllers, e ≠ none) :
    (runRegs regs (s, l)).2.controllers.length ≤ MAX_CONTROLLERS ∧
    ∀ e ∈ (runRegs regs (s, l)).2.controllers, e ≠ none := by
  induction regs generalizing s l with
  | nil => exact ⟨h1, h2⟩
  | cons r rs ih =>
    have hstep := ledRegister_preserves_inv s l r.1 r.2 h1 h2
    have hrw : runRegs (r :: rs) (s, l) =
        runRegs rs (ledRegister r.1 r.2 s l) := rfl
    rw [hrw]
    exact ih (ledRegister r.1 r.2 s l).1 (ledRegister r.1 r.2 s l).2 hstep.1 hstep.2

/-- C10: `LEDMan::Register(tc)` on a null pointer or a full registry
raises the `LEDRegisterFail` fault (triggering the latch; the recorded
cause is `LEDRegisterFail` when the latch was not already on) and leaves
the registry unchanged; otherwise it appends `tc`; consequently, over
any registration sequence starting from the empty registry, the
registry never exceeds 4 entries and never holds a null entry. -/
theorem led_register_spec (s : Sys) (l : LEDSt) (tc : Option CtrlId) (now : Nat) :
    ((tc = none ∨ MAX_CONTROLLERS ≤ l.controllers.length) →
      (ledRegister tc now s l).2 = l ∧
      (ledRegister tc now s l).1.is_panic = true ∧
      (s.is_panic = false →
        (ledRegister tc now s l).1.panic_info.reason =
          PanicReason.LEDRegisterFail)) ∧
    ((tc ≠ none ∧ l.controllers.length < MAX_CONTROLLERS) →
      (ledRegister tc now s l).1 = s ∧
      (ledRegister tc now s l).2.controllers = l.controllers ++ [tc]) ∧
    (∀ regs : List (Option CtrlId × Nat),
      (runRegs regs (s, ledInitial)).2.controllers.length ≤ MAX_CONTROLLERS ∧
      ∀ e ∈ (runRegs regs (s, ledInitial)).2.controllers, e ≠ none) := by
  refine ⟨?_, ?_, ?_⟩
  · intro h
    refine ⟨?_, ?_, ?_⟩
    · simp [ledRegister, h]
    · simp [ledRegister, h]
    · intro hp
      simp [ledRegister, h, sysStartPanic_info _ _ _ _ _ hp]
  · intro h
    have hcond : ¬(tc = none ∨ MAX_CONTROLLERS ≤ l.controllers.length) := by
      push_neg
      exact ⟨h.1, by omega⟩
    constructor <;> simp [ledRegister, hcond]
  · intro regs
    exact runRegs_inv regs s ledInitial (by simp [ledInitial, MAX_CONTROLLERS])
      (by simp [ledInitial])

/-- Witness for C10 at a concrete input: registering a null pointer
leaves the registry unchanged and triggers the latch with cause
`LEDRegisterFail`. -/
theorem led_register_spec_witness :
    (ledRegister none 7 initialSys ledInitial).2 = ledInitial ∧
    (ledRegister none 7 initialSys ledInitial).1.is_panic = true ∧
    (ledRegister none 7 initialSys ledInitial).1.panic_info.reason =
      PanicReason.LEDRegisterFail := by
  have h := (led_register_spec initialSys ledInitial none 7).1 (Or.inl rfl)
  exact ⟨h.1, h.2.1, h.2.2 rfl⟩

/-! ### C4: over-temperature cutoff -/

/-- C4: from `HEATING` or `COOLING`, `Update` with `temp ≥ max` latches
the panic, leaves the controller in `OFF` with the output inactive, does
not touch the desync detector (the over-temperature check precedes the
desync and hysteresis checks, so no hysteresis transition happens that
tick), and, when the latch was not already on, records the fault
`(OverMax, uid, line 358, now)`. -/
theorem overmax_forces_off (s : Sys) (i : CtrlId) (temp : ℚ) (now : Nat)
    (hst : (s.get i).st = CState.HEATING ∨ (s.get i).st = CState.COOLING)
    (htemp : (s.get i).max ≤ temp) :
    (sysUpdate i temp now s).is_panic = true ∧
    ((sysUpdate i temp now s).get i).st = CState.OFF ∧
    ((sysUpdate i temp now s).get i).heater_is_off = true ∧
    ((sysUpdate i temp now s).get i).relay_active = false ∧
    ((sysUpdate i temp now s).get i).desync = (s.get i).desync ∧
    (s.is_panic = false →
      (sysUpdate i temp now s).panic_info =
        ⟨now, 358, (s.get i).uid, PanicReason.OverMax⟩) := by
  have hne : ¬((s.get i).st = CState.OFF) := by
    rcases hst with h | h <;> simp [h]
  have hrw : sysUpdate i temp now s =
      (sysStartPanic PanicReason.OverMax (s.get i).uid 358 now s).modify i
        (Ctrl.Off
          (sysStartPanic PanicReason.OverMax (s.get i).uid 358 now s).is_panic) := by
    unfold sysUpdate
    simp [hne, htemp]
  rw [hrw]
  refine ⟨by simp, ?_, by simp, by simp, ?_, ?_⟩
  · simp [sysStartPanic_is_panic]
  · rw [get_modify_self, Off_desync, sysStartPanic_get]
    split <;> simp
  · intro hp
    rw [modify_panic_info, sysStartPanic_info _ _ _ _ _ hp]

/-- Witness for C4 at a concrete input: the initial `nico` controller
(`COOLING`, target 24, max 28) updated with 28.1 °C latches the panic
and ends `OFF`. -/
theorem overmax_forces_off_witness :
    ((initialSys.get CtrlId.nico).st = CState.HEATING ∨
      (initialSys.get CtrlId.nico).st = CState.COOLING) ∧
    (initialSys.get CtrlId.nico).max ≤ (281/10 : ℚ) ∧
    (sysUpdate CtrlId.nico (281/10) 10000 initialSys).is_panic = true ∧
    ((sysUpdate CtrlId.nico (281/10) 10000 initialSys).get CtrlId.nico).st =
      CState.OFF ∧
    (sysUpdate CtrlId.nico (281/10) 10000 initialSys).panic_info =
      ⟨10000, 358, 1, PanicReason.OverMax⟩ := by
  have hmax : (initialSys.get CtrlId.nico).max ≤ (281/10 : ℚ) := by
    norm_num [initialSys, ctrlStart, Sys.get]
  have h := overmax_forces_off initialSys CtrlId.nico (281/10) 10000
    (Or.inr rfl) hmax
  exact ⟨Or.inr rfl, hmax, h.1, h.2.1, h.2.2.2.2.2 rfl⟩

/-! ### C7: sensor disconnected -/

/-- C7: when the latch is off and the sensor reading equals
`DEVICE_DISCONNECTED_C`, `Loop` is exactly the `StartPanic` call with
cause `SensorDisconnected` (uid of the loop, line 394): the latch
triggers with that recorded cause, the transition table is not evaluated
(the desync detector is untouched and the controller's own change is
exactly the latch's shutdown callback `Off`). -/
theorem sensor_disconnected_spec (s : Sys) (i : CtrlId) (now : Nat)
    (h : s.is_panic = false) :
    sysLoop i DEVICE_DISCONNECTED_C now s =
      sysStartPanic PanicReason.SensorDisconnected (s.get i).uid 394 now s ∧
    (sysLoop i DEVICE_DISCONNECTED_C now s).is_panic = true ∧
    (sysLoop i DEVICE_DISCONNECTED_C now s).panic_info =
      ⟨now, 394, (s.get i).uid, PanicReason.SensorDisconnected⟩ ∧
    ((sysLoop i DEVICE_DISCONNECTED_C now s).get i).desync = (s.get i).desync ∧
    (sysLoop i DEVICE_DISCONNECTED_C now s).get i = Ctrl.Off true (s.get i) := by
  have hrw : sysLoop i DEVICE_DISCONNECTED_C now s =
      sysStartPanic PanicReason.SensorDisconnected (s.get i).uid 394 now s := by
    unfold sysLoop
    simp [h]
  refine ⟨hrw, ?_, ?_, ?_, ?_⟩
  · rw [hrw]; exact sysStartPanic_is_panic _ _ _ _ _
  · rw [hrw]; exact sysStartPanic_info _ _ _ _ _ h
  · rw [hrw, sysStartPanic_get]; simp [h]
  · rw [hrw, sysStartPanic_get]; simp [h]

/-- Witness for C7 at a concrete input: a disconnected reading on `trap`
in the initial system latches the panic with cause
`SensorDisconnected` and shuts the controller down via the callback. -/
theorem sensor_disconnected_spec_witness :
    initialSys.is_panic = false ∧
    (sysLoop CtrlId.trap DEVICE_DISCONNECTED_C 4000 initialSys).is_panic = true ∧
    (sysLoop CtrlId.trap DEVICE_DISCONNECTED_C 4000 initialSys).panic_info =
      ⟨4000, 394, 2, PanicReason.SensorDisconnected⟩ := by
  have h := sensor_disconnected_spec initialSys CtrlId.trap 4000 rfl
  exact ⟨rfl, h.2.1, h.2.2.1⟩

/-! ### C5: hysteresis band -/

@[simp] lemma On_heater (c : Ctrl) : (Ctrl.On c).heater_is_off = false := by
  unfold Ctrl.On
  split <;> simp_all

/-- C5 counterexample: the claim "while in HEATING the output is never
deactivated until a sample ≥ target + allowance is observed; no
activation or deactivation happens for samples strictly inside the band"
fails on the code: a controller in `HEATING` fed the in-band sample
24 °C (band (23.75, 24.25)) at 180000 ms with no rise since its desync
baseline is deactivated that very tick by the `DesyncNoRise` fault
path. -/
theorem hysteresis_deactivation_counterexample :
    stuckHeatSys.nico.heater_is_off = false ∧
    stuckHeatSys.nico.st = CState.HEATING ∧
    stuckHeatSys.nico.target - TEMP_ALLOWANCE < 24 ∧
    (24 : ℚ) < stuckHeatSys.nico.target + TEMP_ALLOWANCE ∧
    ((sysUpdate CtrlId.nico 24 180000 stuckHeatSys).get
        CtrlId.nico).heater_is_off = true := by
  refine ⟨rfl, rfl, ?_, ?_, ?_⟩
  · norm_num [stuckHeatSys, stuckHeatCtrl, TEMP_ALLOWANCE]
  · norm_num [stuckHeatSys, stuckHeatCtrl, TEMP_ALLOWANCE]
  · norm_num +decide [sysUpdate, Sys.get, Sys.modify, sysStartPanic, Ctrl.On,
      Ctrl.Off, DesyncMan.Update, DesyncMan.Begin, DesyncMan.Reset,
      stuckHeatSys, stuckHeatCtrl, ctrlStart, TEMP_ALLOWANCE,
      NEEDED_TEMP_CHANGE, TIME_TO_WAIT, wsub, U32, desyncInitial]

/-- C5 amended: in `COOLING` the output is only ever activated by a
sample at or under `target - allowance`; in `HEATING`/`COOLING` the
output is only ever deactivated by a sample at or over
`target + allowance` or by a fault raised that tick (over-temperature
`temp ≥ max`, or the desync detector reporting true); in particular a
sample strictly inside the band that raises no fault changes the output
in neither direction. -/
theorem hysteresis_amended (s : Sys) (i : CtrlId) (temp : ℚ) (now : Nat) :
    (((s.get i).heater_is_off = true ∧
        ((sysUpdate i temp now s).get i).heater_is_off = false) →
      ((s.get i).st = CState.COOLING ∧
        temp ≤ (s.get i).target - TEMP_ALLOWANCE)) ∧
    (((s.get i).heater_is_off = false ∧
        ((sysUpdate i temp now s).get i).heater_is_off = true) →
      ((s.get i).max ≤ temp ∨
        ((s.get i).desync.Update now temp).1 = true ∨
        (s.get i).target + TEMP_ALLOWANCE ≤ temp)) := by
  simp only [sysUpdate]
  split_ifs with h1 h2 h3 h4 h5 h6
  · simp_all
  · exact ⟨fun hA => absurd hA.2 (by simp), fun _ => Or.inl h2⟩
  · exact ⟨fun hA => absurd hA.2 (by simp), fun _ => Or.inr (Or.inl h4)⟩
  · exact ⟨fun hA => absurd hA.2 (by simp), fun _ => Or.inr (Or.inr h5)⟩
  · simp_all
  · refine ⟨fun _ => ⟨?_, h6⟩, fun hB => ?_⟩
    · cases hcs : (s.get i).st with
      | HEATING => exact absurd hcs h3
      | COOLING => rfl
      | OFF => exact absurd hcs h1
    · exact absurd hB.2 (by simp)
  · simp_all

/-! ### C1: the panic latch fires callbacks at most once -/

lemma startPanic_panicked {α : Type} (s : PanicSt α) (reason : PanicReason)
    (uid line now : Nat) (h : s.is_panic = true) :
    startPanic s reason uid line now = (s, ([] : List α)) := by
  simp [startPanic, h]

lemma runPanics_panicked {α : Type} (s : PanicSt α) (rs : List PanicReq)
    (h : s.is_panic = true) : runPanics s rs = (s, []) := by
  induction rs with
  | nil => rfl
  | cons r rs ih =>
    simp only [runPanics]
    rw [startPanic_panicked s r.reason r.uid r.line r.now h]
    simp [ih]

/-- C1: starting from an untriggered latch, any nonempty sequence of
`StartPanic` calls leaves the latch triggered with exactly the FIRST
call's fault record `(ms, line, uid, reason)`, and the total callback
trace of the whole sequence is the registered callback list (nulls
skipped) in registration order, invoked exactly once — every call after
the first changes nothing and fires nothing.  As `rs` is universally
quantified, the state shown is also the state after every later prefix,
so `IsPanic()` stays `true` for the remainder of the run. -/
theorem panic_latch_at_most_once {α : Type} (cbs : List (Option α))
    (info0 : PanicInfo) (r : PanicReq) (rs : List PanicReq) :
    runPanics (⟨false, cbs, info0⟩ : PanicSt α) (r :: rs) =
      (⟨true, cbs, ⟨r.now, r.line, r.uid, r.reason⟩⟩, cbs.filterMap id) := by
  simp only [runPanics]
  have h1 : startPanic (⟨false, cbs, info0⟩ : PanicSt α) r.reason r.uid r.line r.now =
      (⟨true, cbs, ⟨r.now, r.line, r.uid, r.reason⟩⟩, cbs.filterMap id) := by
    simp [startPanic]
  rw [h1, runPanics_panicked _ rs rfl]
  simp

/-! ### C2: a triggered latch freezes every loop -/

lemma loopTick_sys_panicked (t : TickIn) (m : MainSt)
    (h : m.sys.is_panic = true) : (loopTick t m).sys = m.sys := by
  unfold loopTick
  split_ifs <;> simp_all

lemma runTicks_sys_panicked (ts : List TickIn) :
    ∀ m : MainSt, m.sys.is_panic = true → (runTicks m ts).sys = m.sys := by
  induction ts with
  | nil => intro m _; rfl
  | cons t ts ih =>
    intro m h
    have hs := loopTick_sys_panicked t m h
    have h2 : (loopTick t m).sys.is_panic = true := by rw [hs]; exact h
    have hr : runTicks m (t :: ts) = runTicks (loopTick t m) ts := rfl
    rw [hr, ih (loopTick t m) h2, hs]

/-- C2: once the latch is triggered, the panic/controller state is frozen
for the remainder of the run — over any further sequence of `loop()`
iterations nothing in `Sys` changes (so no controller's relay is ever
written active again and `On` is never reached), `TempController::Loop`
returns immediately without sampling, and each scheduler tick leaves the
controller state untouched; only a full restart (a fresh initial state)
can heat again. -/
theorem panic_freezes_loops (m : MainSt) (ts : List TickIn)
    (h : m.sys.is_panic = true) :
    (runTicks m ts).sys = m.sys ∧
    (∀ (i : CtrlId) (reading : ℚ) (now : Nat) (s : Sys),
      s.is_panic = true → sysLoop i reading now s = s) ∧
    (∀ t : TickIn, (loopTick t m).sys = m.sys) :=
  ⟨runTicks_sys_panicked ts m h,
   fun _ _ _ s hp => by simp [sysLoop, hp],
   fun t => loopTick_sys_panicked t m h⟩

/-- Witness for C2 at a concrete input: a system whose `nico` raised
`OverMax` at 1000 ms stays bit-for-bit identical over two further
scheduler ticks with in-band and over-max readings. -/
theorem panic_freezes_loops_witness :
    panickedMain.sys.is_panic = true ∧
    (runTicks panickedMain [⟨23, 23, 4000⟩, ⟨30, 30, 6000⟩]).sys =
      panickedMain.sys :=
  ⟨rfl, (panic_freezes_loops panickedMain [⟨23, 23, 4000⟩, ⟨30, 30, 6000⟩] rfl).1⟩

/-! ### C3: OFF only via the panic latch, with output inactive -/

lemma sysInv_startPanic (reason : PanicReason) (uid line now : Nat) (s : Sys)
    (h : sysInv s) : sysInv (sysStartPanic reason uid line now s) := by
  intro j hj
  cases hs : s.is_panic with
  | true =>
    have he : sysStartPanic reason uid line now s = s := by
      simp [sysStartPanic, hs]
    rw [he] at hj ⊢
    exact ⟨(h j hj).1, hs⟩
  | false =>
    refine ⟨?_, sysStartPanic_is_panic _ _ _ _ _⟩
    rw [sysStartPanic_get]
    simp [hs]

lemma sysInv_off (s : Sys) (i : CtrlId) (h : sysInv s) :
    sysInv (s.modify i (Ctrl.Off s.is_panic)) := by
  intro j hj
  rw [modify_is_panic]
  by_cases hij : i = j
  · subst hij
    refine ⟨by simp, ?_⟩
    cases hs : s.is_panic with
    | true => rfl
    | false =>
      rw [get_modify_self] at hj
      simp [Ctrl.Off, hs] at hj
      exact absurd (h i hj).2 (by simp [hs])
  · rw [get_modify_other _ _ _ _ hij] at hj
    rw [get_modify_other _ _ _ _ hij]
    exact h j hj

lemma sysInv_setField (s : Sys) (i : CtrlId) (f : Ctrl → Ctrl)
    (hst : ∀ c, (f c).st = c.st)
    (hh : ∀ c, (f c).heater_is_off = c.heater_is_off)
    (h : sysInv s) : sysInv (s.modify i f) := by
  intro j hj
  rw [modify_is_panic]
  by_cases hij : i = j
  · subst hij
    rw [get_modify_self] at hj ⊢
    rw [hst] at hj
    exact ⟨(hh _).trans (h i hj).1, (h i hj).2⟩
  · rw [get_modify_other _ _ _ _ hij] at hj
    rw [get_modify_other _ _ _ _ hij]
    exact h j hj

lemma sysInv_setCooling (s : Sys) (i : CtrlId) (h : sysInv s) :
    sysInv (s.modify i (fun c0 => { c0 with st := CState.COOLING })) := by
  intro j hj
  rw [modify_is_panic]
  by_cases hij : i = j
  · subst hij
    rw [get_modify_self] at hj
    simp at hj
  · rw [get_modify_other _ _ _ _ hij] at hj
    rw [get_modify_other _ _ _ _ hij]
    exact h j hj

lemma sysInv_update (s : Sys) (i : CtrlId) (temp : ℚ) (now : Nat)
    (h : sysInv s) : sysInv (sysUpdate i temp now s) := by
  intro j
  simp only [sysUpdate]
  split_ifs with h1 h2 h3 h4 h5 h6 <;> intro hj
  · exact h j hj
  · exact sysInv_off _ i (sysInv_startPanic _ _ _ _ _ h) j hj
  · exact sysInv_off _ i
      (sysInv_startPanic _ _ _ _ _
        (sysInv_setField s i
          (fun c0 => { c0 with desync := ((s.get i).desync.Update now temp).2 })
          (fun _ => rfl) (fun _ => rfl) h)) j hj
  · exact sysInv_setCooling _ i
      (sysInv_off _ i
        (sysInv_setField s i
          (fun c0 => { c0 with desync := ((s.get i).desync.Update now temp).2 })
          (fun _ => rfl) (fun _ => rfl) h)) j hj
  · exact sysInv_setField s i
      (fun c0 => { c0 with desync := ((s.get i).desync.Update now temp).2 })
      (fun _ => rfl) (fun _ => rfl) h j hj
  · by_cases hij : i = j
    · subst hij
      rw [get_modify_self] at hj
      simp at hj
    · rw [get_modify_other _ _ _ _ hij, get_modify_other _ _ _ _ hij,
        get_modify_other _ _ _ _ hij] at hj
      refine ⟨?_, ?_⟩
      · rw [get_modify_other _ _ _ _ hij, get_modify_other _ _ _ _ hij,
          get_modify_other _ _ _ _ hij]
        exact (h j hj).1
      · simp only [modify_is_panic]
        exact (h j hj).2
  · exact h j hj

lemma sysInv_loop (s : Sys) (i : CtrlId) (reading : ℚ) (now : Nat)
    (h : sysInv s) : sysInv (sysLoop i reading now s) := by
  unfold sysLoop
  split_ifs with h1 h2
  · exact h
  · exact sysInv_startPanic _ _ _ _ _ h
  · exact sysInv_update s i reading now h

lemma sysInv_applyOp (s : Sys) (op : SysOp) (h : sysInv s) :
    sysInv (applyOp s op) := by
  cases op with
  | update i temp now => exact sysInv_update s i temp now h
  | offCall i => exact sysInv_off s i h
  | loopCall i reading now => exact sysInv_loop s i reading now h
  | panicCall reason uid line now => exact sysInv_startPanic reason uid line now s h

lemma sysInv_runOps (ops : List SysOp) :
    ∀ s : Sys, sysInv s → sysInv (runOps s ops) := by
  induction ops with
  | nil => exact fun _ h => h
  | cons op ops ih => exact fun s h => ih (applyOp s op) (sysInv_applyOp s op h)

/-- C3: in every state reachable from the program's initial state (both
controllers `COOLING` with output inactive, latch off) by any sequence
of `Update` / `Off` / `Loop` / `StartPanic` calls, `st = OFF` implies
the output flag is inactive (`heater_is_off = true`) and implies the
panic latch is triggered — so `OFF` is entered only under a triggered
latch, never directly by a normal hysteresis transition, whose
successor states are `COOLING`/`HEATING`. -/
theorem off_state_invariant (ops : List SysOp) :
    sysInv (runOps initialSys ops) := by
  refine sysInv_runOps ops initialSys ?_
  intro j hj
  cases j <;> simp [initialSys, ctrlStart, Sys.get] at hj
